import Mathlib

/-!
Shallow embedding of the usability-testing questionnaire tool in src/p1.py.

The program keeps one append-only CSV file per questionnaire section.  A cell
value written to a file is a Python scalar (string, int, float, bool); we model
it with the sum type `Value`, floats as rationals.  A CSV file is its header
row plus its data rows.  The file system is modelled per file as
`Option CsvFile`: `none` means the file does not exist on disk.
-/

/-- Scalar cell values as the program writes them: Python strings, ints,
floats (modelled as rationals) and booleans. -/
inductive Value where
  | str (s : String)
  | int (n : Int)
  | rat (q : Rat)
  | bool (b : Bool)
deriving DecidableEq

/-- A form submission record, as built in p1.py: an ordered list of
field-name/value pairs (Python dict insertion order). -/
abbrev Record := List (String × Value)

/-- Field names of a record, in order (the dict keys). -/
def Record.fieldNames (d : Record) : List String := d.map Prod.fst

/-- Field values of a record, in order (the dict values). -/
def Record.fieldValues (d : Record) : List Value := d.map Prod.snd

/-- A CSV file on disk: the header row and the data rows. -/
structure CsvFile where
  header : List String
  rows : List (List Value)
deriving DecidableEq

/-- Embedding of save_to_csv (p1.py lines 22-30): the single-row DataFrame
built from data_dict is written with header when the file does not exist,
and appended without header when it does. -/
def save_to_csv (data_dict : Record) (csv_file : Option CsvFile) : CsvFile :=
  match csv_file with
  | none => { header := data_dict.fieldNames, rows := [data_dict.fieldValues] }
  | some f => { f with rows := f.rows ++ [data_dict.fieldValues] }

/-- Embedding of load_from_csv (p1.py lines 33-37): parse the file when it
exists, otherwise return the empty DataFrame (no columns, no rows). -/
def load_from_csv (csv_file : Option CsvFile) : CsvFile :=
  match csv_file with
  | some f => f
  | none => { header := [], rows := [] }

/-- Number of data rows the loaded table of a file has. -/
def rowCount (csv_file : Option CsvFile) : Nat :=
  (load_from_csv csv_file).rows.length

/-- The record built by the consent tab (p1.py lines 77-80). -/
def consentRecord (ts : String) (consent_given : Bool) : Record :=
  [("timestamp", .str ts), ("consent_given", .bool consent_given)]

/-- Consent tab submit handler (p1.py lines 71-81): when the checkbox is not
checked, warn and leave the file alone; otherwise persist the record.
Returns the new file state and whether a warning was shown. -/
def consentSubmit (consent_given : Bool) (ts : String) (file : Option CsvFile) :
    Option CsvFile × Bool :=
  if !consent_given then (file, true)
  else (some (save_to_csv (consentRecord ts consent_given) file), false)

/-- The record built by the demographics form (p1.py lines 98-104). -/
def demographicRecord (ts name : String) (age : Int)
    (occupation familiarity : String) : Record :=
  [("timestamp", .str ts), ("name", .str name), ("age", .int age),
   ("occupation", .str occupation), ("familiarity", .str familiarity)]

/-- Demographics form submit handler (p1.py lines 92-106): warn when
age < 18, else warn when the occupation string is empty (Python falsiness of
a string), else persist.  Returns the new file state and whether a warning
was shown. -/
def demographicSubmit (ts name : String) (age : Int)
    (occupation familiarity : String) (file : Option CsvFile) :
    Option CsvFile × Bool :=
  if age < 18 then (file, true)
  else if occupation = "" then (file, true)
  else (some (save_to_csv (demographicRecord ts name age occupation familiarity) file),
        false)

/-- The record built by the task tab (p1.py lines 147-156).  duration_val is
the stored timer value, `none` when the timer was never stopped; the Python
expression duration_val if duration_val else "" is falsy on both None and
0.0.  The three bug sub-fields are filled only when the bug checkbox is
checked. -/
def taskRecord (ts task_name success : String) (duration_val : Option Rat)
    (bugs : Bool) (traceback bug_desc : String) (bug_imp : Int)
    (notes : String) : Record :=
  [("timestamp", .str ts),
   ("task_name", .str task_name),
   ("success", .str success),
   ("duration_seconds",
     match duration_val with
     | some d => if d = 0 then .str "" else .rat d
     | none => .str ""),
   ("bug", if bugs then .str traceback else .str ""),
   ("bug_description", if bugs then .str bug_desc else .str ""),
   ("bug_impact", if bugs then .int bug_imp else .str ""),
   ("notes", .str notes)]

/-- Task tab save handler (p1.py lines 144-157): no validation, the record is
always persisted. -/
def taskSubmit (ts task_name success : String) (duration_val : Option Rat)
    (bugs : Bool) (traceback bug_desc : String) (bug_imp : Int)
    (notes : String) (file : Option CsvFile) : Option CsvFile :=
  some (save_to_csv
    (taskRecord ts task_name success duration_val bugs traceback bug_desc bug_imp notes)
    file)

/-- The record built by the exit questionnaire (p1.py lines 175-180). -/
def exitRecord (ts : String) (satisfaction difficulty : Int)
    (open_feedback : String) : Record :=
  [("timestamp", .str ts), ("satisfaction", .int satisfaction),
   ("difficulty", .int difficulty), ("open_feedback", .str open_feedback)]

/-- Exit questionnaire submit handler (p1.py lines 174-181): no validation,
the record is always persisted. -/
def exitSubmit (ts : String) (satisfaction difficulty : Int)
    (open_feedback : String) (file : Option CsvFile) : Option CsvFile :=
  some (save_to_csv (exitRecord ts satisfaction difficulty open_feedback) file)

/-- Integer values of the named column of a table, in row order (the typed
column a DataFrame exposes for a column of ints). -/
def colInts (f : CsvFile) (c : String) : List Int :=
  f.rows.filterMap fun r =>
    match r[f.header.indexOf c]? with
    | some (Value.int n) => some n
    | _ => none

/-- Arithmetic mean of a list of integers, as an exact rational (the value
Series.mean computes on an int column). -/
def listMean (xs : List Int) : Rat :=
  (xs.sum : Rat) / (xs.length : Rat)

/-- Two-decimal display of a nonnegative rational, as Python format .2f
renders the exit averages (half-way cases never arise in the claims). -/
def formatTwoDec (q : Rat) : String :=
  let h : Int := (q * 100 + 1 / 2).floor
  let fp := (h % 100).natAbs
  toString (h / 100) ++ "." ++
    (if fp < 10 then "0" ++ toString fp else toString fp)

/-- What the report tab displays (p1.py lines 192-229): per section the
loaded table when non-empty, and for the exit section only, when its table
is non-empty, the two formatted averages (satisfaction, difficulty). -/
structure ReportView where
  consentTable : Option CsvFile
  demographicTable : Option CsvFile
  taskTable : Option CsvFile
  exitTable : Option CsvFile
  exitAverages : Option (String × String)
deriving DecidableEq

/-- A section of the report: the loaded table when it has rows, otherwise
the empty indicator (p1.py lines 196-221, DataFrame.empty test). -/
def renderTable (file : Option CsvFile) : Option CsvFile :=
  let df := load_from_csv file
  if df.rows = [] then none else some df

/-- The report tab (p1.py lines 192-229). -/
def reportView (consentF demographicF taskF exitF : Option CsvFile) : ReportView :=
  let exit_df := load_from_csv exitF
  { consentTable := renderTable consentF
    demographicTable := renderTable demographicF
    taskTable := renderTable taskF
    exitTable := renderTable exitF
    exitAverages :=
      if exit_df.rows = [] then none
      else some (formatTwoDec (listMean (colInts exit_df "satisfaction")),
                 formatTwoDec (listMean (colInts exit_df "difficulty"))) }

/-- Boolean check of the consent-file invariant: every persisted row carries
the value true in the consent_given column (column index 1). -/
def consentOk (file : Option CsvFile) : Bool :=
  (load_from_csv file).rows.all fun row => row[1]? == some (Value.bool true)

/-- The consent file after a sequence of submissions, each a checkbox state
paired with a timestamp. -/
def consentRun (subs : List (Bool × String)) (file : Option CsvFile) :
    Option CsvFile :=
  subs.foldl (fun f s => (consentSubmit s.1 s.2 f).1) file

/-! Helper lemmas. -/

/-- Two-decimal rendering of the exact value 3 is the string 3.00. -/
theorem formatTwoDec_three : formatTwoDec 3 = "3.00" := by
  have h : ((3 : Rat) * 100 + 1 / 2).floor = 300 := by norm_num [Rat.floor]
  rw [formatTwoDec, h]
  decide

/-- One consent submission keeps the consent-file invariant. -/
theorem consentOk_step (b : Bool) (ts : String) (file : Option CsvFile)
    (h : consentOk file = true) :
    consentOk ((consentSubmit b ts file).1) = true := by
  cases b
  · simpa [consentSubmit] using h
  · cases file with
    | none => rfl
    | some f =>
        simp only [consentSubmit, Bool.not_true, Bool.false_eq_true, if_false,
          consentOk, load_from_csv, save_to_csv] at h ⊢
        simp_all [consentRecord, Record.fieldValues, List.all_append]

/-! Claim theorems. -/

/-- C1: a Consent submission with the checkbox checked shows no warning and
appends exactly one row, raising the row count of the consent file by exactly
one; a submission with the checkbox unchecked shows a warning and leaves the
file untouched, so its row count never increases. -/
theorem consent_submit_rowcount (ts : String) (file : Option CsvFile) :
    (consentSubmit true ts file).2 = false ∧
    rowCount (consentSubmit true ts file).1 = rowCount file + 1 ∧
    (consentSubmit false ts file).2 = true ∧
    (consentSubmit false ts file).1 = file := by
  refine ⟨rfl, ?_, rfl, rfl⟩
  cases file
  · rfl
  · simp [consentSubmit, save_to_csv, rowCount, load_from_csv]

/-- C2: a Demographic submission warns exactly when age < 18 or the
occupation is empty; in that case the file is unchanged, and otherwise one
row is appended, raising the row count by exactly one. -/
theorem demographic_reject_iff (ts name : String) (age : Int)
    (occupation familiarity : String) (file : Option CsvFile) :
    ((demographicSubmit ts name age occupation familiarity file).2 = true
        ↔ age < 18 ∨ occupation = "") ∧
    ((age < 18 ∨ occupation = "") →
        (demographicSubmit ts name age occupation familiarity file).1 = file) ∧
    (¬ (age < 18 ∨ occupation = "") →
        rowCount (demographicSubmit ts name age occupation familiarity file).1
          = rowCount file + 1) := by
  by_cases h1 : age < 18 <;> by_cases h2 : occupation = ""
  all_goals cases file
  all_goals simp [demographicSubmit, h1, h2, save_to_csv, rowCount, load_from_csv]

/-- C2 witness: a 21-year-old engineer is persisted (row count goes from 0 to
1) and a 17-year-old is rejected with the file left non-existent. -/
theorem demographic_reject_iff_witness :
    rowCount (demographicSubmit "t" "n" 21 "engineer" "Not Familiar" none).1
      = rowCount none + 1 ∧
    (demographicSubmit "t" "n" 17 "engineer" "Not Familiar" none).1 = none :=
  ⟨(demographic_reject_iff "t" "n" 21 "engineer" "Not Familiar" none).2.2 (by decide),
   (demographic_reject_iff "t" "n" 17 "engineer" "Not Familiar" none).2.1 (by decide)⟩

/-- C3: save_to_csv on a non-existent target creates it with a header row
taken from the record field names followed by the single value row; on an
existing target it appends only the value row and writes no header. -/
theorem save_to_csv_create_or_append (d : Record) (f : CsvFile) :
    save_to_csv d none = ⟨d.fieldNames, [d.fieldValues]⟩ ∧
    save_to_csv d (some f) = ⟨f.header, f.rows ++ [d.fieldValues]⟩ :=
  ⟨rfl, rfl⟩

/-- C4: load_from_csv on a non-existent target returns the empty table with
zero rows and zero columns, and after exactly one append to a previously
non-existent target it returns a table with exactly one row whose values
match the appended record. -/
theorem load_save_roundtrip (d : Record) :
    load_from_csv none = ⟨[], []⟩ ∧
    load_from_csv (some (save_to_csv d none)) = ⟨d.fieldNames, [d.fieldValues]⟩ :=
  ⟨rfl, rfl⟩

/-- C5: the report computes exit averages exactly when the loaded exit table
is non-empty, as the two-decimal rendering of the arithmetic means of the
satisfaction and difficulty columns; in particular an exit file holding two
records with satisfaction values 4 and 2 displays average satisfaction
3.00. -/
theorem exit_report_averages (ts1 ts2 fb1 fb2 : String) (d1 d2 : Int)
    (cF dF tF eF : Option CsvFile) :
    ((load_from_csv eF).rows = [] →
      (reportView cF dF tF eF).exitAverages = none) ∧
    ((load_from_csv eF).rows ≠ [] →
      (reportView cF dF tF eF).exitAverages
        = some (formatTwoDec (listMean (colInts (load_from_csv eF) "satisfaction")),
                formatTwoDec (listMean (colInts (load_from_csv eF) "difficulty")))) ∧
    (reportView cF dF tF
        (exitSubmit ts2 2 d2 fb2 (exitSubmit ts1 4 d1 fb1 none))).exitAverages
      = some ("3.00", formatTwoDec (listMean [d1, d2])) := by
  refine ⟨fun h => by simp [reportView, h], fun h => by simp [reportView, h], ?_⟩
  have hsat : colInts
      (load_from_csv (exitSubmit ts2 2 d2 fb2 (exitSubmit ts1 4 d1 fb1 none)))
      "satisfaction" = [4, 2] := rfl
  have hdiff : colInts
      (load_from_csv (exitSubmit ts2 2 d2 fb2 (exitSubmit ts1 4 d1 fb1 none)))
      "difficulty" = [d1, d2] := rfl
  have hmean : listMean [(4 : Int), 2] = 3 := by norm_num [listMean]
  show some (formatTwoDec (listMean (colInts _ "satisfaction")),
             formatTwoDec (listMean (colInts _ "difficulty"))) = _
  rw [hsat, hdiff, hmean, formatTwoDec_three]

/-- C5 witness: with no exit file the report shows no averages, and for a
concrete one-row exit table the averages are the rendered column means. -/
theorem exit_report_averages_witness :
    (reportView none none none none).exitAverages = none ∧
    (reportView none none none
        (some ⟨["timestamp", "satisfaction", "difficulty", "open_feedback"],
               [[Value.str "t", Value.int 4, Value.int 2, Value.str ""]]⟩)).exitAverages
      = some (formatTwoDec (listMean [4]), formatTwoDec (listMean [2])) :=
  ⟨(exit_report_averages "a" "b" "c" "d" 1 2 none none none none).1 rfl,
   (exit_report_averages "a" "b" "c" "d" 1 2 none none none
      (some ⟨["timestamp", "satisfaction", "difficulty", "open_feedback"],
             [[Value.str "t", Value.int 4, Value.int 2, Value.str ""]]⟩)).2.1
      (by decide)⟩

/-- C6: appending to an existing file never rewrites the header and keeps
every prior row unchanged: the new row list is exactly the old rows followed
by the one new value row, so the old rows form an initial segment of the new
rows and no row is mutated or deleted. -/
theorem append_preserves_prior_contents (d : Record) (f : CsvFile) :
    (save_to_csv d (some f)).header = f.header ∧
    (save_to_csv d (some f)).rows = f.rows ++ [d.fieldValues] ∧
    f.rows <+: (save_to_csv d (some f)).rows :=
  ⟨rfl, rfl, ⟨[d.fieldValues], rfl⟩⟩

/-- C7: save_to_csv makes no schema check: even when the record field names
differ from the header of the existing target, the value row is still
appended, with no error (the function is total and ignores the mismatch). -/
theorem save_no_schema_check (d : Record) (f : CsvFile)
    (_h : d.fieldNames ≠ f.header) :
    save_to_csv d (some f) = ⟨f.header, f.rows ++ [d.fieldValues]⟩ :=
  rfl

/-- C7 witness: a record with the single field x appended to a file with
header timestamp, consent_given still lands as a new row. -/
theorem save_no_schema_check_witness :
    save_to_csv [("x", Value.int 1)]
        (some ⟨["timestamp", "consent_given"], [[Value.str "t", Value.bool true]]⟩)
      = ⟨["timestamp", "consent_given"],
         [[Value.str "t", Value.bool true], [Value.int 1]]⟩ :=
  save_no_schema_check [("x", Value.int 1)]
    ⟨["timestamp", "consent_given"], [[Value.str "t", Value.bool true]]⟩ (by decide)

/-- C8: in every persisted Task record the three bug-report sub-fields carry
the entered traceback, description and impact rating exactly when the bug
checkbox is checked, and are the empty string otherwise; the save handler
persists exactly this record. -/
theorem task_bug_fields_iff_flagged (ts task_name success : String)
    (duration_val : Option Rat) (bugs : Bool) (traceback bug_desc : String)
    (bug_imp : Int) (notes : String) (file : Option CsvFile) :
    ((taskRecord ts task_name success duration_val bugs traceback bug_desc
        bug_imp notes).lookup "bug"
      = some (if bugs then Value.str traceback else Value.str "")) ∧
    ((taskRecord ts task_name success duration_val bugs traceback bug_desc
        bug_imp notes).lookup "bug_description"
      = some (if bugs then Value.str bug_desc else Value.str "")) ∧
    ((taskRecord ts task_name success duration_val bugs traceback bug_desc
        bug_imp notes).lookup "bug_impact"
      = some (if bugs then Value.int bug_imp else Value.str "")) ∧
    taskSubmit ts task_name success duration_val bugs traceback bug_desc
        bug_imp notes file
      = some (save_to_csv (taskRecord ts task_name success duration_val bugs
          traceback bug_desc bug_imp notes) file) :=
  ⟨rfl, rfl, rfl, rfl⟩

/-- C9: after any sequence of Consent submissions starting from a
non-existent consent file, every row of the consent file holds the value
true in its consent_given column: a false value is never written. -/
theorem consent_file_never_false (subs : List (Bool × String)) :
    consentOk (consentRun subs none) = true := by
  have key : ∀ file, consentOk file = true →
      consentOk (consentRun subs file) = true := by
    induction subs with
    | nil => intro file h; simpa [consentRun] using h
    | cons s rest ih =>
        intro file h
        have step := consentOk_step s.1 s.2 file h
        simpa [consentRun] using ih _ step
  exact key none rfl

/-- C10: a stored task duration of exactly 0 is persisted as the empty
string in the duration_seconds field, and the resulting record is identical
to the record of a task whose timer was never used. -/
theorem task_zero_duration_empty (ts task_name success : String) (bugs : Bool)
    (traceback bug_desc : String) (bug_imp : Int) (notes : String) :
    ((taskRecord ts task_name success (some 0) bugs traceback bug_desc
        bug_imp notes).lookup "duration_seconds" = some (Value.str "")) ∧
    taskRecord ts task_name success (some 0) bugs traceback bug_desc
        bug_imp notes
      = taskRecord ts task_name success none bugs traceback bug_desc
          bug_imp notes :=
  ⟨rfl, rfl⟩
